import Mathlib

/- Verification development for the road_analysis package
   (road_sampler.py and collision_analyzer.py).

   Modelling conventions:
   * Geometry lives in the projected metric (UTM) plane; the projection
     itself (pyproj/geopandas `to_crs`) is an external collaborator, so
     points here are planar coordinates in meters, represented as pairs of
     rationals.
   * Euclidean distances are represented by their squares (`dist2`): for
     nonnegative radius r, the source comparison `distance <= r` is encoded
     as `0 <= r ∧ dist2 <= r ^ 2`, which is equivalent because Euclidean
     distance is nonnegative and squaring is monotone on nonnegatives.
     Likewise `distA <= distB` is encoded as `dist2A <= dist2B`.
   * `generate_sample_points` iterates `range(0, int(length), interval)`;
     `pythonRange` reproduces CPython `range` semantics exactly, including
     the `ValueError` on a zero step (modelled as `none`) and the empty
     result for a negative step with stop >= start.  `int(length)` for the
     nonnegative shapely length is integer truncation, i.e. the floor. -/

namespace RoadAnalysis

abbrev Point := ℚ × ℚ

/-- Squared Euclidean distance between two planar points (meters squared). -/
def dist2 (p q : Point) : ℚ :=
  (p.1 - q.1) ^ 2 + (p.2 - q.2) ^ 2

/-- Number of elements of CPython `range(start, stop, step)` for a nonzero
step, computed the way CPython's `range_length` does. -/
def rangeLen (start stop step : ℤ) : ℕ :=
  if 0 < step then
    (if start < stop then ((stop - start - 1) / step + 1).toNat else 0)
  else
    (if stop < start then ((start - stop - 1) / (-step) + 1).toNat else 0)

/-- CPython `range(start, stop, step)` as a list; `none` models the
`ValueError: range() arg 3 must not be zero` raised on a zero step. -/
def pythonRange (start stop step : ℤ) : Option (List ℤ) :=
  if step = 0 then none
  else some ((List.range (rangeLen start stop step)).map fun i : ℕ => start + step * (i : ℤ))

/-- From road_sampler.py, generate_sample_points (lines 174-178):
`for d in range(0, int(self.road_projected.length), self.distance_interval)`.
`flen` stands for `int(self.road_projected.length)`, the truncated projected
road length; each emitted distance yields exactly one interpolated sample
point, so the list of distances determines the sample-point count. -/
def sampleDistances (flen interval : ℤ) : Option (List ℤ) :=
  pythonRange 0 flen interval

/-- Point on the segment from `a` to `b` at parameter `t` (0 at `a`, 1 at `b`). -/
def lerp (a b : Point) (t : ℚ) : Point :=
  (a.1 + t * (b.1 - a.1), a.2 + t * (b.2 - a.2))

/-- Clamp a parameter into the unit interval. -/
def clamp01 (t : ℚ) : ℚ :=
  max 0 (min 1 t)

/-- Squared distance from point `p` to the segment from `a` to `b`, as
computed by shapely for one LineString segment: project `p` onto the
segment's supporting line, clamp the parameter to the segment, and take
the squared distance to that closest point.  A degenerate segment counts
as its single endpoint. -/
def segDist2 (p a b : Point) : ℚ :=
  let dd := dist2 a b
  if dd = 0 then dist2 p a
  else
    let t := ((p.1 - a.1) * (b.1 - a.1) + (p.2 - a.2) * (b.2 - a.2)) / dd
    dist2 p (lerp a b (clamp01 t))

/-- Consecutive vertex pairs of a polyline. -/
def segments : List Point → List (Point × Point)
  | a :: b :: rest => (a, b) :: segments (b :: rest)
  | _ => []

/-- Squared distance from `p` to a polyline (a shapely LineString):
the minimum over its segments of the squared segment distance.  A
polyline with fewer than two vertices is not a valid LineString; the
value 0 there is an arbitrary default never relied upon. -/
def polylineDist2 (p : Point) (verts : List Point) : ℚ :=
  let ds := (segments verts).map (fun ab => segDist2 p ab.1 ab.2)
  ds.tail.foldl min ds.headI

/-- Membership on a polyline: the point is `lerp` of the endpoints of some
segment at a parameter in the unit interval. -/
def OnPolyline (s : Point) (verts : List Point) : Prop :=
  ∃ ab ∈ segments verts, ∃ t : ℚ, 0 ≤ t ∧ t ≤ 1 ∧ s = lerp ab.1 ab.2 t

/-- A collision record (one row of collisions_gdf), restricted to the
fields the analyzer reads.  `idx` is the GeoDataFrame row index used for
deduplication; `loc` is the collision geometry in the projected plane. -/
structure CollisionRecord where
  idx : ℕ
  loc : Point
  collision_severity : ℤ
  day_of_week : ℤ
  weather_conditions : ℤ
  light_conditions : ℤ
  time : String
  number_of_casualties : ℕ
deriving DecidableEq, Repr

/-- From collision_analyzer.py, find_nearby_collisions (lines 89-98):
the source compares the Euclidean distance of each collision to each
sample point with the radius (`distances <= self.radius`); a collision is
kept iff some sample point is within the radius, and the index set
deduplicates collisions reachable from several sample points.  Euclidean
`distance <= r` is encoded as `0 <= r ∧ dist2 <= r ^ 2`. -/
def withinRadius (c s : Point) (r : ℚ) : Bool :=
  decide (0 ≤ r) && decide (dist2 c s ≤ r ^ 2)

/-- The filtered nearby-collision rows produced by find_nearby_collisions
before annotation. -/
def findNearbyCollisions (collisions : List CollisionRecord)
    (samples : List Point) (r : ℚ) : List CollisionRecord :=
  collisions.filter fun c => samples.any fun s => withinRadius c.loc s r

/-- From collision_analyzer.py lines 100-108: each kept collision gets
`distance_to_road_m`, its distance to the full projected road line
(squared in this model). -/
def attachRoadDistance (recs : List CollisionRecord) (road : List Point) :
    List (CollisionRecord × ℚ) :=
  recs.map fun c => (c, polylineDist2 c.loc road)

/-- SEVERITY_MAP from collision_analyzer.py (line 24). -/
def SEVERITY_MAP : List (ℤ × String) :=
  [(1, "Fatal"), (2, "Serious"), (3, "Slight")]

/-- DAY_MAP from collision_analyzer.py (lines 25-28). -/
def DAY_MAP : List (ℤ × String) :=
  [(1, "Sunday"), (2, "Monday"), (3, "Tuesday"), (4, "Wednesday"),
   (5, "Thursday"), (6, "Friday"), (7, "Saturday")]

/-- WEATHER_MAP from collision_analyzer.py (lines 29-40). -/
def WEATHER_MAP : List (ℤ × String) :=
  [(1, "Fine no high winds"), (2, "Raining no high winds"),
   (3, "Snowing no high winds"), (4, "Fine + high winds"),
   (5, "Raining + high winds"), (6, "Snowing + high winds"),
   (7, "Fog or mist"), (8, "Other"), (9, "Unknown"), (-1, "Data missing")]

/-- LIGHT_MAP from collision_analyzer.py (lines 41-48). -/
def LIGHT_MAP : List (ℤ × String) :=
  [(1, "Daylight"), (4, "Darkness - lights lit"), (5, "Darkness - lights unlit"),
   (6, "Darkness - no lighting"), (7, "Darkness - lighting unknown"),
   (-1, "Data missing")]

/-- pandas `Series.map(dict)`: a key present in the dictionary maps to its
value, any other key maps to NaN, modelled as `none`. -/
def mapLookup (m : List (ℤ × String)) (code : ℤ) : Option String :=
  (m.find? fun p => p.1 = code).map Prod.snd

/-- Characters before the first colon: `.str.split(':').str[0]`. -/
def beforeColon : List Char → List Char
  | [] => []
  | c :: cs => if c = ':' then [] else c :: beforeColon cs

/-- Decimal digit value of a character, if it is a digit. -/
def digitVal (c : Char) : Option ℕ :=
  if 48 ≤ c.toNat ∧ c.toNat ≤ 57 then some (c.toNat - 48) else none

def parseNatDigitsAux : List Char → ℕ → Option ℕ
  | [], acc => some acc
  | c :: cs, acc =>
    match digitVal c with
    | some d => parseNatDigitsAux cs (acc * 10 + d)
    | none => none

/-- Parse a nonempty all-digit string. -/
def parseNatDigits : List Char → Option ℕ
  | [] => none
  | cs => parseNatDigitsAux cs 0

/-- Python `int(s)`: an optional leading minus sign followed by at least
one decimal digit; anything else raises ValueError (`none`). -/
def parsePyInt (cs : List Char) : Option ℤ :=
  match cs with
  | [] => none
  | c :: rest =>
    if c = '-' then (parseNatDigits rest).map fun n => -(n : ℤ)
    else (parseNatDigits cs).map fun n => (n : ℤ)

/-- `self.nearby_collisions['time'].str.split(':').str[0].astype(int)`
applied to one value: take the text before the first colon and parse it
as an integer; `none` models the ValueError raised by `astype` when the
text is not an integer literal. -/
def parseHourField (t : String) : Option ℤ :=
  parsePyInt (beforeColon t.data)

/-- A nearby-collision row after _add_mapped_columns: the source row,
its attached squared distance to the road, the four decoded label columns
(NaN as `none`), and the parsed hour. -/
structure MappedRecord where
  base : CollisionRecord
  dist2_to_road : ℚ
  severity_name : Option String
  day_name : Option String
  weather_name : Option String
  light_name : Option String
  hour : ℤ
deriving DecidableEq, Repr

/-- Decorate one row as _add_mapped_columns does, failing if the time
field does not parse. -/
def mapRecord (c : CollisionRecord) (d : ℚ) : Option MappedRecord :=
  (parseHourField c.time).map fun h =>
    { base := c
      dist2_to_road := d
      severity_name := mapLookup SEVERITY_MAP c.collision_severity
      day_name := mapLookup DAY_MAP c.day_of_week
      weather_name := mapLookup WEATHER_MAP c.weather_conditions
      light_name := mapLookup LIGHT_MAP c.light_conditions
      hour := h }

/-- From collision_analyzer.py, _add_mapped_columns (lines 115-126): the
column assignments are whole-column operations, and
`.str.split(':').str[0].astype(int)` raises on the first row whose time
field is not parsable, aborting the whole call; `none` models that
ValueError, so one malformed row yields no decorated rows at all. -/
def addMappedColumns : List (CollisionRecord × ℚ) → Option (List MappedRecord)
  | [] => some []
  | p :: rest =>
    match mapRecord p.1 p.2, addMappedColumns rest with
    | some m, some ms => some (m :: ms)
    | _, _ => none

/-- The summary block built by calculate_statistics (lines 142-147). -/
structure SummaryStats where
  total_collisions : ℕ
  total_casualties : ℕ
  avg_casualties_per_collision : ℚ
  collisions_per_sample_point : ℚ
deriving DecidableEq, Repr

/-- From collision_analyzer.py, calculate_statistics (lines 138-147):
the average guards against an empty matched set, but
`total_collisions / len(self.sample_points)` has no guard, so an empty
sample-point set raises ZeroDivisionError (modelled as `none`). -/
def summaryStats (matched : List MappedRecord) (numSamplePoints : ℕ) :
    Option SummaryStats :=
  let total := matched.length
  let cas := (matched.map fun m => m.base.number_of_casualties).sum
  if numSamplePoints = 0 then none
  else some
    { total_collisions := total
      total_casualties := cas
      avg_casualties_per_collision := if 0 < total then (cas : ℚ) / total else 0
      collisions_per_sample_point := (total : ℚ) / numSamplePoints }

/-- pandas `value_counts()` over a label column: occurrence counts of the
distinct non-NaN values (NaN rows are dropped). -/
def valueCountsObs (labels : List (Option String)) : List (String × ℕ) :=
  let obs := labels.filterMap id
  obs.dedup.map fun l => (l, obs.count l)

/-- The per-category percentage table of calculate_statistics (lines
149-157 and analogous blocks): `count / total_collisions * 100` for each
observed category, where `total` is the full matched-set size. -/
def percentageTable (labels : List (Option String)) (total : ℕ) :
    List (String × ℚ) :=
  (valueCountsObs labels).map fun p => (p.1, (p.2 : ℚ) / (total : ℚ) * 100)

/-- Sum of the percentages over one categorical dimension. -/
def percentageSum (labels : List (Option String)) (total : ℕ) : ℚ :=
  ((percentageTable labels total).map Prod.snd).sum

def demoCollisionA : CollisionRecord :=
  { idx := 0, loc := (0, 3), collision_severity := 1, day_of_week := 2,
    weather_conditions := 1, light_conditions := 1, time := "08:15",
    number_of_casualties := 2 }

def demoCollisionB : CollisionRecord :=
  { idx := 1, loc := (100, 100), collision_severity := 3, day_of_week := 5,
    weather_conditions := 2, light_conditions := 4, time := "17:40",
    number_of_casualties := 1 }

def demoSamples : List Point := [(0, 0), (0, 6)]

def demoRoad : List Point := [(0, 0), (0, 10)]

def demoRoadSamples : List Point := [(0, 5)]

def demoCollisionC : CollisionRecord :=
  { idx := 0, loc := (3, 4), collision_severity := 2, day_of_week := 3,
    weather_conditions := 1, light_conditions := 1, time := "09:00",
    number_of_casualties := 1 }

def demoBadTimeRecord : CollisionRecord :=
  { idx := 0, loc := (0, 0), collision_severity := 1, day_of_week := 1,
    weather_conditions := 1, light_conditions := 1, time := "unknown",
    number_of_casualties := 1 }

def demoGoodTimeRecord : CollisionRecord :=
  { idx := 1, loc := (0, 1), collision_severity := 2, day_of_week := 4,
    weather_conditions := 2, light_conditions := 4, time := "14:05",
    number_of_casualties := 3 }

def demoUnknownCodeRecord : CollisionRecord :=
  { idx := 2, loc := (0, 2), collision_severity := 0, day_of_week := 0,
    weather_conditions := 0, light_conditions := 0, time := "10:30",
    number_of_casualties := 1 }

def demoMappedA : MappedRecord :=
  { base := demoCollisionA, dist2_to_road := 0,
    severity_name := some "Fatal", day_name := some "Monday",
    weather_name := some "Fine no high winds", light_name := some "Daylight",
    hour := 8 }

/-- For a positive step, index `i` is inside the range iff `i * I < flen`. -/
theorem rangeLen_pos_lt_iff (flen I : ℤ) (hI : 0 < I) (hf : 0 ≤ flen) (i : ℕ) :
    i < rangeLen 0 flen I ↔ (i : ℤ) * I < flen := by
  unfold rangeLen
  rw [if_pos hI]
  by_cases hpos : (0 : ℤ) < flen
  · rw [if_pos hpos]
    have h1 : (i : ℤ) ≤ (flen - 0 - 1) / I ↔ (i : ℤ) * I ≤ flen - 0 - 1 :=
      Int.le_ediv_iff_mul_le hI
    have hq0 : 0 ≤ (flen - 0 - 1) / I := Int.ediv_nonneg (by omega) hI.le
    constructor
    · intro h
      have h2 : (i : ℤ) < (flen - 0 - 1) / I + 1 := by
        have := (Int.lt_toNat).mp h
        omega
      have h3 : (i : ℤ) * I ≤ flen - 0 - 1 := h1.mp (by omega)
      linarith
    · intro h
      have h3 : (i : ℤ) * I ≤ flen - 0 - 1 := by linarith
      have h2 : (i : ℤ) ≤ (flen - 0 - 1) / I := h1.mpr h3
      have : (i : ℤ) < (flen - 0 - 1) / I + 1 := by omega
      exact (Int.lt_toNat).mpr this
  · have hze : flen = 0 := by omega
    subst hze
    simp only [lt_irrefl, if_false]
    constructor
    · intro h; exact absurd h (Nat.not_lt_zero i)
    · intro h
      exact absurd h (not_lt.mpr (mul_nonneg (Int.natCast_nonneg i) hI.le))

/-- For a positive step, the range length equals the ceiling of `flen / I`. -/
theorem rangeLen_eq_ceil (flen I : ℤ) (hI : 0 < I) (hf : 0 ≤ flen) :
    (rangeLen 0 flen I : ℤ) = ⌈(flen : ℚ) / (I : ℚ)⌉ := by
  have hIQ : (0 : ℚ) < (I : ℚ) := by exact_mod_cast hI
  unfold rangeLen
  rw [if_pos hI]
  by_cases hpos : (0 : ℤ) < flen
  · rw [if_pos hpos]
    set q : ℤ := (flen - 0 - 1) / I with hq
    have hq0 : 0 ≤ q := Int.ediv_nonneg (by omega) hI.le
    have hle : q * I ≤ flen - 0 - 1 := (Int.le_ediv_iff_mul_le hI).mp le_rfl
    have hgt : flen - 0 - 1 < (q + 1) * I := by
      by_contra hcon
      push_neg at hcon
      have : q + 1 ≤ q := (Int.le_ediv_iff_mul_le hI).mpr hcon
      omega
    rw [Int.toNat_of_nonneg (by omega)]
    symm
    rw [Int.ceil_eq_iff]
    constructor
    · rw [lt_div_iff₀ hIQ]
      push_cast
      have : (q : ℚ) * (I : ℚ) ≤ (flen : ℚ) - 1 := by exact_mod_cast (by omega : q * I ≤ flen - 1)
      linarith
    · rw [div_le_iff₀ hIQ]
      push_cast
      have : (flen : ℚ) ≤ ((q : ℚ) + 1) * (I : ℚ) := by
        exact_mod_cast (by omega : flen ≤ (q + 1) * I)
      linarith
  · have hze : flen = 0 := by omega
    subst hze
    simp

/-- For a positive interval, the emitted distance list exists and its
members are exactly the nonnegative multiples of the interval that are
strictly below the truncated length. -/
theorem sampleDistances_mem_iff (flen I d : ℤ) (hI : 0 < I) (hf : 0 ≤ flen) :
    ∀ ds, sampleDistances flen I = some ds →
      (d ∈ ds ↔ (∃ k : ℕ, d = (k : ℤ) * I) ∧ d < flen) := by
  intro ds hds
  unfold sampleDistances pythonRange at hds
  rw [if_neg hI.ne'] at hds
  obtain rfl : ((List.range (rangeLen 0 flen I)).map fun i : ℕ => 0 + I * (i : ℤ)) = ds :=
    Option.some_injective _ hds
  simp only [List.mem_map, List.mem_range, zero_add]
  constructor
  · rintro ⟨i, hi, rfl⟩
    have h1 := (rangeLen_pos_lt_iff flen I hI hf i).mp hi
    exact ⟨⟨i, by ring⟩, by linarith⟩
  · rintro ⟨⟨k, rfl⟩, hd⟩
    have hk : k < rangeLen 0 flen I :=
      (rangeLen_pos_lt_iff flen I hI hf k).mpr hd
    exact ⟨k, hk, by ring⟩

/-- For a positive interval the sampler succeeds and its point count is
the range length. -/
theorem sampleDistances_length (flen I : ℤ) (hI : 0 < I) :
    ∃ ds, sampleDistances flen I = some ds ∧ ds.length = rangeLen 0 flen I := by
  refine ⟨(List.range (rangeLen 0 flen I)).map (fun i : ℕ => 0 + I * (i : ℤ)), ?_, by simp⟩
  unfold sampleDistances pythonRange
  rw [if_neg hI.ne']

theorem foldl_min_le_init (ds : List ℚ) (d : ℚ) : ds.foldl min d ≤ d := by
  induction ds generalizing d with
  | nil => exact le_rfl
  | cons a as ih => exact le_trans (ih (min d a)) (min_le_left _ _)

theorem foldl_min_le {d x : ℚ} {ds : List ℚ} (hx : x ∈ ds) :
    ds.foldl min d ≤ x := by
  induction ds generalizing d with
  | nil => cases hx
  | cons a as ih =>
    rcases List.mem_cons.mp hx with rfl | hmem
    · exact le_trans (foldl_min_le_init as (min d x)) (min_le_right _ _)
    · exact ih hmem

theorem dist2_nonneg (p q : Point) : 0 ≤ dist2 p q := by
  unfold dist2
  positivity

theorem dist2_eq_zero_iff {a b : Point} : dist2 a b = 0 ↔ a = b := by
  unfold dist2
  constructor
  · intro h
    have h1 : a.1 - b.1 = 0 := by nlinarith [sq_nonneg (a.1 - b.1), sq_nonneg (a.2 - b.2)]
    have h2 : a.2 - b.2 = 0 := by nlinarith [sq_nonneg (a.1 - b.1), sq_nonneg (a.2 - b.2)]
    exact Prod.ext (by linarith) (by linarith)
  · rintro rfl
    ring

/-- The clamped projection used by `segDist2` really is the closest point
of the segment: any point of the segment is at least as far from `p`. -/
theorem segDist2_le_of_mem (p a b : Point) (t : ℚ) (ht0 : 0 ≤ t) (ht1 : t ≤ 1) :
    segDist2 p a b ≤ dist2 p (lerp a b t) := by
  unfold segDist2
  by_cases hdd : dist2 a b = 0
  · rw [if_pos hdd]
    obtain rfl : a = b := dist2_eq_zero_iff.mp hdd
    have : lerp a a t = a := by
      unfold lerp
      simp
    rw [this]
  · rw [if_neg hdd]
    have hddpos : 0 < dist2 a b := lt_of_le_of_ne (dist2_nonneg a b) (Ne.symm hdd)
    set px := p.1 - a.1 with hpx
    set py := p.2 - a.2 with hpy
    set dx := b.1 - a.1 with hdx
    set dy := b.2 - a.2 with hdy
    have hddval : dist2 a b = dx ^ 2 + dy ^ 2 := by
      unfold dist2
      rw [hdx, hdy]
      ring
    set dot := px * dx + py * dy with hdot
    set t0 := dot / dist2 a b with ht0def
    have ht0val : t0 * dist2 a b = dot := div_mul_cancel₀ dot hdd
    have hexpand : ∀ s : ℚ, dist2 p (lerp a b s) =
        px ^ 2 + py ^ 2 - 2 * s * dot + s ^ 2 * (dist2 a b) := by
      intro s
      rw [hddval, hdot, hpx, hpy, hdx, hdy]
      unfold dist2 lerp
      ring
    rw [hexpand, hexpand]
    rcases le_or_lt t0 0 with hc0 | hc0
    · have hu : clamp01 t0 = 0 := by
        unfold clamp01
        rw [min_eq_right (le_trans hc0 zero_le_one), max_eq_left hc0]
      rw [hu]
      have hdotle : dot ≤ 0 := by
        have := mul_nonpos_of_nonpos_of_nonneg hc0 hddpos.le
        rw [ht0val] at this
        exact this
      nlinarith [sq_nonneg t, mul_nonneg ht0 (neg_nonneg.mpr hdotle)]
    · rcases le_or_lt 1 t0 with hc1 | hc1
      · have hu : clamp01 t0 = 1 := by
          unfold clamp01
          rw [min_eq_left hc1, max_eq_right zero_le_one]
        rw [hu]
        have hdotge : dist2 a b ≤ dot := by
          have := mul_le_mul_of_nonneg_right hc1 hddpos.le
          rw [one_mul, ht0val] at this
          exact this
        nlinarith [mul_nonneg (sub_nonneg.mpr ht1) hddpos.le,
          mul_nonneg (mul_nonneg (sub_nonneg.mpr ht1) (sub_nonneg.mpr ht1)) hddpos.le]
      · have hu : clamp01 t0 = t0 := by
          unfold clamp01
          rw [min_eq_right hc1.le, max_eq_right hc0.le]
        rw [hu]
        nlinarith [mul_nonneg (mul_nonneg (sub_nonneg.mpr (le_refl t0)) hddpos.le) (sq_nonneg (t - t0)),
          mul_nonneg hddpos.le (sq_nonneg (t - t0)), ht0val]

/-- The polyline distance is a lower bound for each segment distance. -/
theorem polylineDist2_le_mem (p : Point) (verts : List Point) (x : ℚ)
    (hx : x ∈ (segments verts).map (fun ab => segDist2 p ab.1 ab.2)) :
    polylineDist2 p verts ≤ x := by
  unfold polylineDist2
  rcases hl : (segments verts).map (fun ab => segDist2 p ab.1 ab.2) with _ | ⟨d, ds⟩
  · rw [hl] at hx
    cases hx
  · rw [hl] at hx
    rw [hl]
    simp only [List.tail_cons, List.headI]
    rcases List.mem_cons.mp hx with rfl | hmem
    · exact foldl_min_le_init ds x
    · exact foldl_min_le hmem

/-- The polyline distance is a lower bound for the distance to any point
lying on the polyline. -/
theorem polylineDist2_le_of_on (p s : Point) (verts : List Point)
    (hs : OnPolyline s verts) : polylineDist2 p verts ≤ dist2 p s := by
  obtain ⟨ab, hab, t, ht0, ht1, rfl⟩ := hs
  have hseg : segDist2 p ab.1 ab.2 ∈ (segments verts).map (fun q => segDist2 p q.1 q.2) :=
    List.mem_map.mpr ⟨ab, hab, rfl⟩
  exact le_trans (polylineDist2_le_mem p verts _ hseg)
    (segDist2_le_of_mem p ab.1 ab.2 t ht0 ht1)

/-- C1: find_nearby_collisions keeps a collision iff its planar Euclidean
distance to at least one sample point is at most the radius (encoded on
squares: `0 ≤ r ∧ dist2 ≤ r ^ 2`), and, provided the row indices are
unique as in a GeoDataFrame, each qualifying collision appears exactly
once in the result even when it is within radius of several sample
points. -/
theorem find_nearby_collisions_membership_dedup
    (collisions : List CollisionRecord) (samples : List Point) (r : ℚ)
    (hnd : (collisions.map CollisionRecord.idx).Nodup) :
    (∀ c, c ∈ findNearbyCollisions collisions samples r ↔
        c ∈ collisions ∧ ∃ s ∈ samples, 0 ≤ r ∧ dist2 c.loc s ≤ r ^ 2) ∧
    ∀ c ∈ findNearbyCollisions collisions samples r,
      (findNearbyCollisions collisions samples r).count c = 1 := by
  have hmem : ∀ c, c ∈ findNearbyCollisions collisions samples r ↔
      c ∈ collisions ∧ ∃ s ∈ samples, 0 ≤ r ∧ dist2 c.loc s ≤ r ^ 2 := by
    intro c
    simp [findNearbyCollisions, List.mem_filter, List.any_eq_true, withinRadius]
  refine ⟨hmem, ?_⟩
  have hnodup : (findNearbyCollisions collisions samples r).Nodup :=
    List.Nodup.filter _ (List.Nodup.of_map _ hnd)
  intro c hc
  exact List.count_eq_one_of_mem hnodup hc

/-- Witness for C1 at concrete data: collision A at (0,3) is within
radius 5 of both sample points (0,0) and (0,6) yet is counted once. -/
theorem find_nearby_collisions_membership_dedup_witness :
    (findNearbyCollisions [demoCollisionA, demoCollisionB] demoSamples 5).count
      demoCollisionA = 1 := by
  have H := find_nearby_collisions_membership_dedup
    [demoCollisionA, demoCollisionB] demoSamples 5
    (by simp [demoCollisionA, demoCollisionB])
  refine H.2 demoCollisionA ?_
  refine (H.1 demoCollisionA).mpr ⟨by simp, (0, 6), by simp [demoSamples], by norm_num, ?_⟩
  simp only [demoCollisionA, dist2]
  norm_num

/-- C2 counterexample: for a road of truncated projected length 100 and
interval 50 the sampler emits 2 points while the claimed formula
floor(floor(length)/I) + 1 gives 3; and for the spec's ~111 m example
(truncated length 111) it emits 3 points at 0, 50 and 100, not the
claimed 2 points. -/
theorem sampler_count_formula_counterexample :
    sampleDistances 100 50 = some [0, 50] ∧ (100 : ℤ) / 50 + 1 = 3 ∧
    sampleDistances 111 50 = some [0, 50, 100] := by decide

/-- C2 amended: for every nonnegative projected length L and positive
interval I the sampler succeeds and emits ceil(floor(L)/I) points (not
floor(floor(L)/I) + 1); in particular a ~111 m road at interval 50 gives
3 points at distances 0, 50, 100. -/
theorem sampler_count_eq_ceil (L : ℚ) (I : ℤ) (hL : 0 ≤ L) (hI : 0 < I) :
    (∃ ds, sampleDistances ⌊L⌋ I = some ds ∧
      (ds.length : ℤ) = ⌈(⌊L⌋ : ℚ) / (I : ℚ)⌉) ∧
    sampleDistances 111 50 = some [0, 50, 100] := by
  refine ⟨?_, by decide⟩
  obtain ⟨ds, hds, hlen⟩ := sampleDistances_length ⌊L⌋ I hI
  refine ⟨ds, hds, ?_⟩
  rw [hlen]
  exact rangeLen_eq_ceil ⌊L⌋ I hI (Int.floor_nonneg.mpr hL)

/-- Witness for C2 amended at L = 100, I = 50. -/
theorem sampler_count_eq_ceil_witness :
    (∃ ds, sampleDistances ⌊(100 : ℚ)⌋ 50 = some ds ∧
      (ds.length : ℤ) = ⌈(⌊(100 : ℚ)⌋ : ℚ) / (50 : ℚ)⌉) ∧
    sampleDistances 111 50 = some [0, 50, 100] :=
  sampler_count_eq_ceil 100 50 (by norm_num) (by norm_num)

/-- C3: for a positive interval, the emitted sample distances are exactly
the multiples 0, I, 2I, ... lying in the half-open range
[0, floor(length)); no distance at or past floor(length) is emitted. -/
theorem sample_distances_characterization (L : ℚ) (I d : ℤ)
    (hL : 0 ≤ L) (hI : 0 < I) :
    ∀ ds, sampleDistances ⌊L⌋ I = some ds →
      (d ∈ ds ↔ (∃ k : ℕ, d = (k : ℤ) * I) ∧ 0 ≤ d ∧ d < ⌊L⌋) := by
  intro ds hds
  have hf : 0 ≤ ⌊L⌋ := Int.floor_nonneg.mpr hL
  rw [sampleDistances_mem_iff ⌊L⌋ I d hI hf ds hds]
  constructor
  · rintro ⟨⟨k, rfl⟩, hlt⟩
    exact ⟨⟨k, rfl⟩, mul_nonneg (Int.natCast_nonneg k) hI.le, hlt⟩
  · rintro ⟨hk, _, hlt⟩
    exact ⟨hk, hlt⟩

/-- Witness for C3: at truncated length 111 and interval 50 the distance
50 = 1 * 50 is emitted. -/
theorem sample_distances_characterization_witness :
    (50 : ℤ) ∈ ([0, 50, 100] : List ℤ) := by
  have hfl : ⌊(111 : ℚ)⌋ = 111 := by norm_num
  have h := sample_distances_characterization 111 50 50 (by norm_num) (by norm_num)
    [0, 50, 100] (by rw [hfl]; decide)
  exact h.mpr ⟨⟨1, by norm_num⟩, by norm_num, by rw [hfl]; norm_num⟩

/-- C5 counterexample: with truncated length 100 and the negative
interval -5 the sampler raises no error and produces an empty point
list, contrary to the claim that every non-positive interval fails with
InvalidInterval before producing sample points. -/
theorem sampler_negative_interval_counterexample :
    sampleDistances 100 (-5) = some [] := by decide

/-- C5 amended: only a zero interval makes the sampler raise (the
ValueError of range on a zero step); a negative interval silently
produces an empty sample-point list whenever the truncated length is
nonnegative, which it always is. -/
theorem sampler_nonpositive_interval (flen I : ℤ) (hf : 0 ≤ flen) :
    (I = 0 → sampleDistances flen I = none) ∧
    (I < 0 → sampleDistances flen I = some []) := by
  constructor
  · rintro rfl
    unfold sampleDistances pythonRange
    simp
  · intro hI
    unfold sampleDistances pythonRange rangeLen
    rw [if_neg hI.ne, if_neg (not_lt.mpr hI.le), if_neg (not_lt.mpr hf)]
    simp

/-- Witness for C5 amended at flen = 100 with intervals 0 and -5. -/
theorem sampler_nonpositive_interval_witness :
    sampleDistances 100 0 = none ∧ sampleDistances 100 (-5) = some [] :=
  ⟨(sampler_nonpositive_interval 100 0 (by norm_num)).1 rfl,
   (sampler_nonpositive_interval 100 (-5) (by norm_num)).2 (by norm_num)⟩

/-- C4: every matched collision's attached distance_to_road_m is its
planar distance to the full projected road line (represented here by the
squared distance `polylineDist2`), and since the sample points lie on the
road line, it is at most the distance to each sample point, hence at most
the distance to the nearest one. -/
theorem distance_to_road_le_distance_to_sample
    (road samples : List Point) (collisions : List CollisionRecord) (r : ℚ)
    (hs : ∀ s ∈ samples, OnPolyline s road) :
    ∀ pr ∈ attachRoadDistance (findNearbyCollisions collisions samples r) road,
      pr.2 = polylineDist2 pr.1.loc road ∧
      ∀ s ∈ samples, pr.2 ≤ dist2 pr.1.loc s := by
  intro pr hpr
  obtain ⟨c, hc, rfl⟩ := List.mem_map.mp hpr
  exact ⟨rfl, fun s hsm => polylineDist2_le_of_on c.loc s road (hs s hsm)⟩

/-- Witness for C4: the collision at (3,4) matched against the road from
(0,0) to (0,10) sampled at (0,5) has road distance at most its distance
to that sample point. -/
theorem distance_to_road_le_distance_to_sample_witness :
    polylineDist2 demoCollisionC.loc demoRoad ≤ dist2 demoCollisionC.loc (0, 5) := by
  have hon : ∀ s ∈ demoRoadSamples, OnPolyline s demoRoad := by
    intro s hsm
    have hs5 : s = ((0 : ℚ), (5 : ℚ)) := by simpa [demoRoadSamples] using hsm
    subst hs5
    refine ⟨((0, 0), (0, 10)), by simp [demoRoad, segments], 1 / 2,
      by norm_num, by norm_num, ?_⟩
    simp only [lerp, Prod.ext_iff]
    norm_num
  have hcmem : demoCollisionC ∈
      findNearbyCollisions [demoCollisionC] demoRoadSamples 10 := by
    simp only [findNearbyCollisions, withinRadius, demoRoadSamples, demoCollisionC,
      dist2, List.filter, List.any, List.mem_filter]
    norm_num
  have hpr : (demoCollisionC, polylineDist2 demoCollisionC.loc demoRoad) ∈
      attachRoadDistance (findNearbyCollisions [demoCollisionC] demoRoadSamples 10)
        demoRoad :=
    List.mem_map.mpr ⟨demoCollisionC, hcmem, rfl⟩
  have H := distance_to_road_le_distance_to_sample demoRoad demoRoadSamples
    [demoCollisionC] 10 hon _ hpr
  exact H.2 (0, 5) (by simp [demoRoadSamples])

/-- C6 counterexample: a batch holding one record with the unparsable time
"unknown" and one well-formed record yields no decorated records at all —
the whole _add_mapped_columns call fails — even though the well-formed
record maps fine on its own; the code does not skip just the bad record
and continue. -/
theorem malformed_time_aborts_batch_counterexample :
    addMappedColumns [(demoBadTimeRecord, 0), (demoGoodTimeRecord, 0)] = none ∧
    (mapRecord demoGoodTimeRecord 0).isSome = true := by decide

/-- C6 amended: when any record's time field cannot be parsed into an
integer hour, the whole _add_mapped_columns call fails with the astype
ValueError and produces no records, aborting the batch rather than
skipping only the bad record. -/
theorem malformed_time_aborts_batch (recs : List (CollisionRecord × ℚ))
    (h : ∃ p ∈ recs, parseHourField p.1.time = none) :
    addMappedColumns recs = none := by
  induction recs with
  | nil =>
    obtain ⟨p, hp, _⟩ := h
    cases hp
  | cons q rest ih =>
    obtain ⟨p, hp, hbad⟩ := h
    rcases List.mem_cons.mp hp with rfl | hmem
    · have hnone : mapRecord p.1 p.2 = none := by
        unfold mapRecord
        rw [hbad]
        rfl
      unfold addMappedColumns
      rw [hnone]
    · have hrest : addMappedColumns rest = none := ih ⟨p, hmem, hbad⟩
      unfold addMappedColumns
      rw [hrest]
      cases mapRecord q.1 q.2 <;> rfl

/-- Witness for C6 amended: the single bad record makes the call fail. -/
theorem malformed_time_aborts_batch_witness :
    addMappedColumns [(demoBadTimeRecord, 0)] = none :=
  malformed_time_aborts_batch [(demoBadTimeRecord, 0)]
    ⟨(demoBadTimeRecord, 0), by simp, by decide⟩

/-- C7 counterexample: severity code 0 is absent from SEVERITY_MAP, and
decoding a record carrying it yields a missing value (pandas NaN, `none`)
for severity_name, not an explicit "Data missing"/"Unknown" label. -/
theorem unknown_code_missing_value_counterexample :
    (mapRecord demoUnknownCodeRecord 0).map (fun m => m.severity_name) =
      some none ∧
    mapLookup SEVERITY_MAP 0 = none := by decide

theorem mapLookup_eq_none {m : List (ℤ × String)} {c : ℤ}
    (h : c ∉ m.map Prod.fst) : mapLookup m c = none := by
  unfold mapLookup
  have hfind : m.find? (fun p => p.1 = c) = none := by
    rw [List.find?_eq_none]
    intro p hp hpc
    rw [decide_eq_true_eq] at hpc
    exact h (List.mem_map.mpr ⟨p, hp, hpc⟩)
  rw [hfind]
  rfl

/-- C7 amended: a code present in a lookup table decodes to its label —
the weather and light tables do carry explicit entries "Data missing" for
code -1 and "Unknown" for weather code 9 — but any code absent from a
table decodes to a missing value (pandas NaN, `none`) rather than to an
explicit label. -/
theorem unknown_code_decodes_to_missing (c : ℤ)
    (h1 : c ∉ SEVERITY_MAP.map Prod.fst) (h2 : c ∉ DAY_MAP.map Prod.fst)
    (h3 : c ∉ WEATHER_MAP.map Prod.fst) (h4 : c ∉ LIGHT_MAP.map Prod.fst) :
    mapLookup SEVERITY_MAP c = none ∧ mapLookup DAY_MAP c = none ∧
    mapLookup WEATHER_MAP c = none ∧ mapLookup LIGHT_MAP c = none ∧
    mapLookup WEATHER_MAP (-1) = some "Data missing" ∧
    mapLookup WEATHER_MAP 9 = some "Unknown" ∧
    mapLookup LIGHT_MAP (-1) = some "Data missing" :=
  ⟨mapLookup_eq_none h1, mapLookup_eq_none h2, mapLookup_eq_none h3,
   mapLookup_eq_none h4, by decide, by decide, by decide⟩

/-- Witness for C7 amended at code 100, absent from all four tables. -/
theorem unknown_code_decodes_to_missing_witness :
    mapLookup SEVERITY_MAP 100 = none ∧ mapLookup DAY_MAP 100 = none ∧
    mapLookup WEATHER_MAP 100 = none ∧ mapLookup LIGHT_MAP 100 = none ∧
    mapLookup WEATHER_MAP (-1) = some "Data missing" ∧
    mapLookup WEATHER_MAP 9 = some "Unknown" ∧
    mapLookup LIGHT_MAP (-1) = some "Data missing" :=
  unknown_code_decodes_to_missing 100 (by decide) (by decide) (by decide) (by decide)

/-- C8 counterexample: with an empty matched set AND an empty sample-point
set, calculate_statistics raises ZeroDivisionError (modelled as `none`)
instead of returning zero summary scalars, so the claim as stated fails:
it needs a nonempty sample-point set. -/
theorem empty_match_set_raises_counterexample :
    summaryStats [] 0 = none := by decide

/-- C8 amended: when the matched collision set is empty and at least one
sample point exists, calculate_statistics raises no exception and every
summary scalar — total collisions, total casualties, the casualty
average and the collisions-per-sample-point quotient — equals 0. -/
theorem empty_match_statistics_zero (n : ℕ) (hn : 0 < n) :
    summaryStats [] n = some
      { total_collisions := 0, total_casualties := 0,
        avg_casualties_per_collision := 0,
        collisions_per_sample_point := 0 } := by
  unfold summaryStats
  rw [if_neg hn.ne']
  simp

/-- Witness for C8 amended at three sample points. -/
theorem empty_match_statistics_zero_witness :
    summaryStats [] 3 = some
      { total_collisions := 0, total_casualties := 0,
        avg_casualties_per_collision := 0,
        collisions_per_sample_point := 0 } :=
  empty_match_statistics_zero 3 (by norm_num)

/-- C10: the `total_collisions / len(self.sample_points)` division has no
guard: for every matched set, an empty sample-point set makes
calculate_statistics raise ZeroDivisionError (`none`) while any nonempty
sample-point set succeeds, and the sampler really can produce an empty
sample-point set (truncated road length 0), so the operation is safe only
under the unstated precondition that a sample point exists. -/
theorem collisions_per_sample_point_unguarded
    (matched : List MappedRecord) (n : ℕ) (hn : 0 < n) :
    summaryStats matched 0 = none ∧
    (summaryStats matched n).isSome = true ∧
    sampleDistances 0 50 = some [] := by
  refine ⟨?_, ?_, by decide⟩
  · unfold summaryStats
    simp
  · unfold summaryStats
    rw [if_neg hn.ne']
    rfl

/-- Witness for C10 at the empty matched set and one sample point. -/
theorem collisions_per_sample_point_unguarded_witness :
    summaryStats [] 0 = none ∧ (summaryStats [] 1).isSome = true ∧
    sampleDistances 0 50 = some [] :=
  collisions_per_sample_point_unguarded [] 1 (by norm_num)

/-- C9 counterexample: a 2-record matched set where the second record's
severity code 0 lies outside SEVERITY_MAP has severity labels
[Fatal, NaN]; value_counts drops the NaN, so the severity percentages of
calculate_statistics sum to 50, not 100, although the matched set is
nonempty. -/
theorem percentage_sum_counterexample :
    percentageSum [mapLookup SEVERITY_MAP demoCollisionA.collision_severity,
      mapLookup SEVERITY_MAP demoUnknownCodeRecord.collision_severity] 2 = 50 ∧
    mapLookup SEVERITY_MAP demoCollisionA.collision_severity = some "Fatal" ∧
    mapLookup SEVERITY_MAP demoUnknownCodeRecord.collision_severity = none := by
  refine ⟨?_, by decide, by decide⟩
  have h1 : valueCountsObs
      [mapLookup SEVERITY_MAP demoCollisionA.collision_severity,
       mapLookup SEVERITY_MAP demoUnknownCodeRecord.collision_severity] =
      [("Fatal", 1)] := by decide
  unfold percentageSum percentageTable
  rw [h1]
  simp
  norm_num

theorem length_filterMap_id_of_all_some {labels : List (Option String)}
    (h : ∀ l ∈ labels, l.isSome = true) :
    (labels.filterMap id).length = labels.length := by
  induction labels with
  | nil => rfl
  | cons a as ih =>
    rcases a with _ | v
    · exact absurd (h none (List.mem_cons_self _ _)) (by simp)
    · have hstep : List.filterMap id (some v :: as) = v :: List.filterMap id as := by
        simp
      rw [hstep, List.length_cons, List.length_cons,
        ih fun l hl => h l (List.mem_cons_of_mem _ hl)]

theorem sum_map_cast_mul (l : List String) (g : String → ℕ) (c : ℚ) :
    (l.map fun x => (g x : ℚ) * c).sum = ((l.map g).sum : ℚ) * c := by
  induction l with
  | nil => simp
  | cons a as ih =>
    simp only [List.map_cons, List.sum_cons, ih]
    push_cast
    ring

/-- Over one categorical dimension, if the full matched set is the total
and every label is present (no NaN), the percentages sum to exactly 100. -/
theorem percentageSum_eq_100 (labels : List (Option String)) (total : ℕ)
    (htot : total = labels.length) (hne : labels ≠ [])
    (hall : ∀ l ∈ labels, l.isSome = true) :
    percentageSum labels total = 100 := by
  have hobslen : (labels.filterMap id).length = labels.length :=
    length_filterMap_id_of_all_some hall
  have htotpos : total ≠ 0 := by
    rw [htot]
    exact (List.length_pos.mpr hne).ne'
  unfold percentageSum percentageTable valueCountsObs
  rw [List.map_map, List.map_map]
  have hfun : List.map
      ((Prod.snd ∘ fun p : String × ℕ => (p.1, (p.2 : ℚ) / (total : ℚ) * 100)) ∘
        fun l => (l, (labels.filterMap id).count l)) (labels.filterMap id).dedup =
      List.map (fun l => ((labels.filterMap id).count l : ℚ) * (100 / (total : ℚ)))
        (labels.filterMap id).dedup := by
    apply List.map_congr_left
    intro l hl
    simp only [Function.comp_apply]
    ring
  rw [hfun,
    sum_map_cast_mul _ (fun l => (labels.filterMap id).count l) (100 / (total : ℚ)),
    List.sum_map_count_dedup_eq_length, hobslen, ← htot]
  field_simp

/-- C9 amended: for every nonempty matched set in which each record's
severity, day, weather and light code decodes to a label (no NaN), the
percentages of calculate_statistics over each dimension's observed
categories sum to exactly 100 in rational arithmetic.  When some record
carries a code outside a lookup table its label is NaN, value_counts
drops it, and that dimension's percentages sum to strictly less than 100
(see the counterexample). -/
theorem percentage_sums_eq_100 (matched : List MappedRecord)
    (hne : matched ≠ [])
    (hsev : ∀ m ∈ matched, m.severity_name.isSome = true)
    (hday : ∀ m ∈ matched, m.day_name.isSome = true)
    (hwea : ∀ m ∈ matched, m.weather_name.isSome = true)
    (hlig : ∀ m ∈ matched, m.light_name.isSome = true) :
    percentageSum (matched.map fun m => m.severity_name) matched.length = 100 ∧
    percentageSum (matched.map fun m => m.day_name) matched.length = 100 ∧
    percentageSum (matched.map fun m => m.weather_name) matched.length = 100 ∧
    percentageSum (matched.map fun m => m.light_name) matched.length = 100 := by
  have hmap : ∀ (f : MappedRecord → Option String),
      (∀ m ∈ matched, (f m).isSome = true) →
      percentageSum (matched.map f) matched.length = 100 := by
    intro f hf
    refine percentageSum_eq_100 _ _ (List.length_map _ _).symm ?_ ?_
    · simp only [ne_eq, List.map_eq_nil_iff]
      exact hne
    · intro l hl
      obtain ⟨m, hm, rfl⟩ := List.mem_map.mp hl
      exact hf m hm
  exact ⟨hmap _ hsev, hmap _ hday, hmap _ hwea, hmap _ hlig⟩

/-- Witness for C9 amended at a one-record matched set with all labels
present: every dimension sums to 100. -/
theorem percentage_sums_eq_100_witness :
    percentageSum ([demoMappedA].map fun m => m.severity_name) 1 = 100 ∧
    percentageSum ([demoMappedA].map fun m => m.day_name) 1 = 100 ∧
    percentageSum ([demoMappedA].map fun m => m.weather_name) 1 = 100 ∧
    percentageSum ([demoMappedA].map fun m => m.light_name) 1 = 100 :=
  percentage_sums_eq_100 [demoMappedA] (by simp) (by decide) (by decide)
    (by decide) (by decide)

end RoadAnalysis
